import Mathlib

set_option maxHeartbeats 1000000

/-! Shallow embedding of the movie-bot indexing and ranking engine from
src/bot.py: caption parsing (extract_movie_title, extract_keywords),
relevance scoring (calculate_match_score), the search pipeline
(perform_search) and the persistence round trip (save_db / load_db).
Strings are modelled by their character lists; the ASCII fragments of
Python's str.lower, regex classes \w and \s are used, which cover every
input appearing in the claims. -/

/-- Python whitespace for str.strip, str.split and regex class \s (ASCII fragment). -/
def pyIsSpace (c : Char) : Bool :=
  c = ' ' || c = '\t' || c = '\n' || c = '\r' || c = '\x0b' || c = '\x0c'

/-- Python regex word character \w (ASCII fragment): alphanumeric or underscore. -/
def pyIsWordChar (c : Char) : Bool := c.isAlphanum || c = '_'

/-- Python str.lower (ASCII fragment). -/
def pyLower (l : List Char) : List Char := l.map Char.toLower

/-- Python str.strip(): drop whitespace from both ends. -/
def pyStrip (l : List Char) : List Char :=
  ((l.dropWhile pyIsSpace).reverse.dropWhile pyIsSpace).reverse

/-- The substitution re.sub(r'\s+', ' ', s): each whitespace run becomes one space. -/
def collapseWS : List Char → List Char
  | [] => []
  | [c] => if pyIsSpace c then [' '] else [c]
  | c :: d :: rest =>
    if pyIsSpace c then
      if pyIsSpace d then collapseWS (d :: rest)
      else ' ' :: collapseWS (d :: rest)
    else c :: collapseWS (d :: rest)

/-- clean_text from bot.py: collapse whitespace runs, then strip the ends. -/
def clean_text (s : String) : String := ⟨pyStrip (collapseWS s.data)⟩

/-- Python truthiness of an optional string: present and nonempty. -/
def pyTruthy : Option String → Bool
  | none => false
  | some s => s != ""

/-- The Python chain text or caption or empty used by bot.py. -/
def pyOrText (text caption : Option String) : String :=
  if pyTruthy text then text.getD ""
  else if pyTruthy caption then caption.getD ""
  else ""

/-- Python content.split of a newline: split at every newline, keeping empty pieces. -/
def splitNL : List Char → List (List Char)
  | [] => [[]]
  | c :: cs =>
    if c = '\n' then [] :: splitNL cs
    else
      match splitNL cs with
      | [] => [[c]]
      | h :: t => (c :: h) :: t

/-- Characters kept by the substitution removing everything outside word
characters, whitespace, dash, colon, parentheses and dot. -/
def keepTitleChar (c : Char) : Bool :=
  pyIsWordChar c || pyIsSpace c || c = '-' || c = ':' || c = '(' || c = ')' || c = '.'

/-- The lowercase line starts that disqualify a title line in extract_movie_title. -/
def badStarts : List (List Char) :=
  [['h', 't', 't', 'p'], ['w', 'w', 'w'], ['j', 'o', 'i', 'n'],
   ['c', 'h', 'a', 'n', 'n', 'e', 'l']]

/-- Whether a line starts with one of the disqualifying markers. -/
def startsWithBad (l : List Char) : Bool :=
  badStarts.any (fun p => p.isPrefixOf l)

/-- One iteration of the title-line loop in extract_movie_title: clean the line,
drop disallowed characters, accept when longer than 3 characters and not
starting with a disqualifying marker, truncated to 80 characters. -/
def qualifyLine (line : List Char) : Option (List Char) :=
  let l := (pyStrip (collapseWS line)).filter keepTitleChar
  if l.length > 3 && !(startsWithBad (pyLower l)) then some (l.take 80) else none

/-- The first qualifying line among the given lines (the for-loop). -/
def firstQualifying : List (List Char) → Option (List Char)
  | [] => none
  | l :: ls =>
    match qualifyLine l with
    | some r => some r
    | none => firstQualifying ls

/-- extract_movie_title from bot.py. -/
def extract_movie_title (text caption : Option String) : String :=
  let content := pyOrText text caption
  if content = "" then "Unknown Movie"
  else
    match firstQualifying ((splitNL content.data).take 3) with
    | some l => ⟨l⟩
    | none => clean_text ⟨content.data.take 80⟩

/-- Scanner for the substitution deleting URL tokens. In skipping mode (first
argument true) non-space characters are dropped, realising the greedy non-space
run of the pattern; in normal mode an occurrence of http followed by a
non-space character switches to skipping mode, so the occurrence and the whole
non-space run after it are removed, scanning left to right. -/
def stripUrlsAux : Bool → List Char → List Char
  | _, [] => []
  | true, c :: cs =>
    if pyIsSpace c then c :: stripUrlsAux false cs
    else stripUrlsAux true cs
  | false, 'h' :: 't' :: 't' :: 'p' :: c :: rest =>
    if pyIsSpace c then 'h' :: stripUrlsAux false ('t' :: 't' :: 'p' :: c :: rest)
    else stripUrlsAux true (c :: rest)
  | false, c :: cs => c :: stripUrlsAux false cs

/-- The substitution deleting each URL token: an occurrence of http followed by
at least one non-space character is removed together with the whole non-space
run after it. -/
def stripUrls (l : List Char) : List Char := stripUrlsAux false l

/-- The substitution replacing every non-word, non-space character by a space. -/
def punctToSpace (l : List Char) : List Char :=
  l.map (fun c => if pyIsWordChar c || pyIsSpace c then c else ' ')

/-- Helper for pySplit carrying the word accumulated so far (reversed). -/
def pySplitAux : List Char → List Char → List (List Char)
  | [], acc => if acc.isEmpty then [] else [acc.reverse]
  | c :: cs, acc =>
    if pyIsSpace c then
      if acc.isEmpty then pySplitAux cs [] else acc.reverse :: pySplitAux cs []
    else pySplitAux cs (c :: acc)

/-- Python str.split() without separator: whitespace-delimited words, no empties. -/
def pySplit (l : List Char) : List (List Char) := pySplitAux l []

/-- The stop-word set of extract_keywords in bot.py. -/
def stop_words : List String :=
  ["the", "a", "an", "and", "or", "but", "in", "on", "at", "to", "for", "of",
   "with", "by", "from", "as", "is", "was", "are", "were", "been", "be", "have",
   "has", "had", "do", "does", "did", "will", "would", "could", "should", "may",
   "might", "must", "can", "movie", "film", "watch", "download", "free", "full",
   "hd", "quality", "link", "join", "channel", "telegram", "group", "size", "mb", "gb"]

/-- extract_keywords from bot.py: lowercase, delete URL tokens, turn punctuation
into spaces, split, and keep the words longer than 2 characters that are not
stop words, as a set. -/
def extract_keywords (text : String) : Finset String :=
  if text = "" then ∅
  else
    let ws := pySplit (punctToSpace (stripUrls (pyLower text.data)))
    ((ws.filter (fun w => w.length > 2 && !(stop_words.contains (⟨w⟩ : String)))).map
      (fun w => (⟨w⟩ : String))).toFinset

/-- Media kinds recorded by index_message. -/
inductive MediaType where
  | video
  | document
  | photo
  deriving DecidableEq

/-- One indexed record as stored in movies_db by index_message. -/
structure Record where
  id : Nat
  title : String
  text : String
  keywords : Finset String
  media_type : Option MediaType
  date : Option String
  deriving DecidableEq

/-- The fields of an incoming message consumed by index_message. -/
structure Message where
  id : Nat
  text : Option String
  caption : Option String
  video : Bool
  document : Bool
  photo : Bool
  date : Option String
  deriving DecidableEq

/-- The word set of a character list, as the Python set of s.split(). -/
def wordSet (l : List Char) : Finset String :=
  ((pySplit l).map (fun w => (⟨w⟩ : String))).toFinset

/-- The Python substring test: needle occurs contiguously in hay. -/
def pyIn (needle : List Char) : List Char → Bool
  | [] => needle.isEmpty
  | c :: t => needle.isPrefixOf (c :: t) || pyIn needle t

/-- calculate_match_score from bot.py. -/
def calculate_match_score (query : String) (m : Record) : Nat :=
  let q := pyStrip (pyLower query.data)
  let query_words := wordSet q
  let title := pyLower m.title.data
  let text := pyLower m.text.data
  if q = title then 10000
  else
    (if pyIn q title then 5000 else 0)
    + (if q.isPrefixOf title then 3000 else 0)
    + 1000 * (query_words ∩ wordSet title).card
    + 500 * (query_words ∩ m.keywords).card
    + (if pyIn q text then 100 else 0)
    + (if m.media_type = some MediaType.video || m.media_type = some MediaType.document
       then 50 else 0)

/-- index_message from bot.py: the record stored for a message, or none when
the message is skipped. -/
def index_message (msg : Message) : Option Record :=
  let text := pyOrText msg.text msg.caption
  if text = "" && !(msg.video || msg.document) then none
  else some
    { id := msg.id
      title := extract_movie_title msg.text msg.caption
      text := ⟨text.data.take 500⟩
      keywords := extract_keywords text
      media_type :=
        if msg.video then some MediaType.video
        else if msg.document then some MediaType.document
        else if msg.photo then some MediaType.photo
        else none
      date := msg.date }

/-- One entry of the results list built in perform_search. -/
structure SearchResult where
  msg_id : Nat
  title : String
  score : Nat
  deriving DecidableEq

/-- The candidate pass of perform_search: every stored record with a positive
score, in store iteration order, carrying id, title and score. -/
def searchCandidates (query : String) (store : List (Nat × Record)) : List SearchResult :=
  store.filterMap (fun p =>
    let s := calculate_match_score (⟨pyLower query.data⟩ : String) p.2
    if s > 0 then some ⟨p.1, p.2.title, s⟩ else none)

/-- The descending-score comparison realised by the reverse sort in perform_search. -/
def scoreGE (a b : SearchResult) : Bool := b.score ≤ a.score

/-- perform_search from bot.py: candidates sorted by score descending with
Python's stable sort, truncated to the first five. -/
def performSearchResults (query : String) (store : List (Nat × Record)) : List SearchResult :=
  ((searchCandidates query store).mergeSort scoreGE).take 5

/-- One record as serialized by save_db: keywords flattened to a list. -/
structure SerialRecord where
  id : Nat
  title : String
  text : String
  keywords : List String
  media_type : Option MediaType
  date : Option String
  deriving DecidableEq

/-- Decimal digit character. -/
def digitChar10 (d : Nat) : Char :=
  match d with
  | 0 => '0'
  | 1 => '1'
  | 2 => '2'
  | 3 => '3'
  | 4 => '4'
  | 5 => '5'
  | 6 => '6'
  | 7 => '7'
  | 8 => '8'
  | 9 => '9'
  | _ => '0'

/-- Value of a decimal digit character. -/
def digitVal10 (c : Char) : Nat :=
  match c with
  | '0' => 0
  | '1' => 1
  | '2' => 2
  | '3' => 3
  | '4' => 4
  | '5' => 5
  | '6' => 6
  | '7' => 7
  | '8' => 8
  | '9' => 9
  | _ => 0

/-- Python str(n) on a nonnegative int: decimal digits, most significant first. -/
def pyStr (n : Nat) : String :=
  if n = 0 then "0" else ⟨((Nat.digits 10 n).map digitChar10).reverse⟩

/-- Python int(s) on a decimal numeral, as load_db applies it to saved keys. -/
def pyInt (s : String) : Nat :=
  Nat.ofDigits 10 ((s.data.map digitVal10).reverse)

/-- The enumeration of a keyword set taken by list(keywords) in save_db: Python
set order is unspecified, modelled by the sorted enumeration. -/
def keywordList (s : Finset String) : List String :=
  s.sort (· ≤ ·)

/-- save_db from bot.py: stringify the keys and flatten each keyword set. -/
def save_db (store : List (Nat × Record)) : List (String × SerialRecord) :=
  store.map (fun p =>
    (pyStr p.1,
     { id := p.2.id
       title := p.2.title
       text := p.2.text
       keywords := keywordList p.2.keywords
       media_type := p.2.media_type
       date := p.2.date }))

/-- The loading loop of load_db: parse the keys back to ints and rebuild each
keyword set. -/
def load_db (data : List (String × SerialRecord)) : List (Nat × Record) :=
  data.map (fun p =>
    (pyInt p.1,
     { id := p.2.id
       title := p.2.title
       text := p.2.text
       keywords := p.2.keywords.toFinset
       media_type := p.2.media_type
       date := p.2.date }))

/-- load_db including its missing-file handler: a missing file leaves the store
empty instead of raising. -/
def load_db_from_file (file : Option (List (String × SerialRecord))) : List (Nat × Record) :=
  match file with
  | none => []
  | some d => load_db d

/-- The fallback of extract_movie_title as the specification words it: the
first 80 characters of the whitespace-normalized full text (normalize first,
truncate second), to be compared with the source's order of operations. -/
def spec_fallback_title (content : String) : String :=
  ⟨(clean_text content).data.take 80⟩

/-- The keyword set obtained by re-parsing a stored record's text field. -/
def keywordsOfStoredText (r : Record) : Finset String :=
  extract_keywords r.text

/-- The keyword set of an optional record, empty when absent. -/
def kwOf (o : Option Record) : Finset String :=
  (o.map Record.keywords).getD ∅

/-- The scenario message of the spec: the Avengers caption with the video flag. -/
def msgAv : Message :=
  { id := 7
    text := none
    caption := some "Avengers: Endgame (2019)\nAction movie"
    video := true
    document := false
    photo := false
    date := some "2019-04-26" }

/-- A message whose text is longer than 500 characters, with its only keyword
after the truncation point. -/
def msgLong : Message :=
  { id := 9
    text := some ⟨(List.replicate 167 ['a', 'a', ' ']).flatten ++ ['z', 'e', 'b', 'r', 'a']⟩
    caption := none
    video := false
    document := false
    photo := false
    date := none }

/-- A content string on which no title line qualifies and whose truncation at
80 characters cuts a whitespace run short. -/
def contentC7 : String :=
  ⟨['h', 't', 't', 'p', 'A'] ++ List.replicate 75 ' ' ++ ['Z']⟩

/-- A no-match record carrying a video, for the media-bonus analysis. -/
def mediaOnlyRecord : Record :=
  { id := 1
    title := "abc"
    text := "def"
    keywords := ∅
    media_type := some MediaType.video
    date := none }

/-- A list always occurs in itself as a substring. -/
lemma pyIn_refl (l : List Char) : pyIn l l = true := by
  cases l with
  | nil => rfl
  | cons c t =>
    unfold pyIn
    rw [Bool.or_eq_true]
    exact Or.inl (List.isPrefixOf_iff_prefix.mpr (List.prefix_refl _))

/-- A leading occurrence is in particular a substring occurrence. -/
lemma pyIn_of_isPrefixOf {n h : List Char} (hp : n.isPrefixOf h = true) :
    pyIn n h = true := by
  cases h with
  | nil =>
    cases n with
    | nil => rfl
    | cons c t => simp [List.isPrefixOf] at hp
  | cons c t =>
    unfold pyIn
    rw [Bool.or_eq_true]
    exact Or.inl hp

/-- An exact (normalized) title match short-circuits to the fixed score 10000. -/
lemma score_of_exact_title (q : String) (m : Record)
    (h : pyStrip (pyLower q.data) = pyLower m.title.data) :
    calculate_match_score q m = 10000 := by
  unfold calculate_match_score
  simp only [h, if_pos]

/-- Collapsing whitespace runs never lengthens a list. -/
lemma collapseWS_length (l : List Char) : (collapseWS l).length ≤ l.length := by
  induction l with
  | nil => simp [collapseWS]
  | cons c tail ih =>
    cases tail with
    | nil => unfold collapseWS; split <;> simp
    | cons d rest =>
      unfold collapseWS
      split
      · split
        · simp only [List.length_cons] at ih ⊢
          omega
        · simp only [List.length_cons] at ih ⊢
          omega
      · simp only [List.length_cons] at ih ⊢
        omega

/-- Stripping never lengthens a list. -/
lemma pyStrip_length (l : List Char) : (pyStrip l).length ≤ l.length := by
  unfold pyStrip
  have h1 := (List.dropWhile_sublist (l := l) pyIsSpace).length_le
  have h2 := (List.dropWhile_sublist (l := (l.dropWhile pyIsSpace).reverse) pyIsSpace).length_le
  simp only [List.length_reverse] at *
  omega

/-- clean_text never lengthens a string. -/
lemma clean_text_length (s : String) : (clean_text s).length ≤ s.length := by
  have h1 := pyStrip_length (collapseWS s.data)
  have h2 := collapseWS_length s.data
  simp only [clean_text, String.length]
  omega

/-- A qualifying title line is at most 80 characters long. -/
lemma qualifyLine_length {line r : List Char} (h : qualifyLine line = some r) :
    r.length ≤ 80 := by
  simp only [qualifyLine] at h
  split at h
  · cases h
    rw [List.length_take]
    exact min_le_left _ _
  · cases h

/-- The first qualifying line is at most 80 characters long. -/
lemma firstQualifying_length :
    ∀ {ls : List (List Char)} {r : List Char}, firstQualifying ls = some r → r.length ≤ 80 := by
  intro ls
  induction ls with
  | nil => intro r h; cases h
  | cons l ls ih =>
    intro r h
    unfold firstQualifying at h
    cases hq : qualifyLine l with
    | some x => rw [hq] at h; cases h; exact qualifyLine_length hq
    | none => rw [hq] at h; exact ih h

/-- Decimal digit characters decode back to their values. -/
lemma digitVal10_digitChar10 : ∀ d < 10, digitVal10 (digitChar10 d) = d := by decide

/-- Printing a nonnegative int in decimal and parsing it back is the identity. -/
lemma pyInt_pyStr (n : Nat) : pyInt (pyStr n) = n := by
  by_cases h : n = 0
  · subst h
    decide
  · rw [pyStr, if_neg h]
    unfold pyInt
    show Nat.ofDigits 10 (((((Nat.digits 10 n).map digitChar10).reverse).map digitVal10).reverse) = n
    rw [List.map_reverse, List.reverse_reverse, List.map_map]
    have hmap : (Nat.digits 10 n).map (digitVal10 ∘ digitChar10) = Nat.digits 10 n := by
      have h1 : ∀ d ∈ Nat.digits 10 n, (digitVal10 ∘ digitChar10) d = id d := fun d hd =>
        digitVal10_digitChar10 d (Nat.digits_lt_base (by norm_num) hd)
      rw [List.map_congr_left h1, List.map_id]
    rw [hmap]
    exact Nat.ofDigits_digits 10 n

/-- The descending-score comparison is transitive. -/
lemma scoreGE_trans : ∀ (a b c : SearchResult), scoreGE a b → scoreGE b c → scoreGE a c := by
  intro a b c
  simp only [scoreGE, decide_eq_true_eq]
  omega

/-- The descending-score comparison is total. -/
lemma scoreGE_total : ∀ (a b : SearchResult), scoreGE a b || scoreGE b a := by
  intro a b
  simp only [scoreGE, Bool.or_eq_true, decide_eq_true_eq]
  omega

/-- Stability of the sort in perform_search: for each score value, the sorted
list restricted to that value is the candidate list restricted to it, so equal
scores stay in store order. -/
lemma mergeSort_score_filter (cands : List SearchResult) (s : Nat) :
    ((cands.mergeSort scoreGE).filter (fun r => r.score == s))
      = cands.filter (fun r => r.score == s) := by
  have hperm : (cands.mergeSort scoreGE).Perm cands := List.mergeSort_perm cands scoreGE
  have hall : ∀ x ∈ cands.filter (fun r => r.score == s), x.score = s := by
    intro x hx
    have := List.of_mem_filter hx
    simpa using this
  have hpw : (cands.filter (fun r => r.score == s)).Pairwise (fun a b => scoreGE a b) := by
    apply List.pairwise_of_forall_mem_list
    intro a ha b hb
    simp only [scoreGE, decide_eq_true_eq]
    rw [hall a ha, hall b hb]
  have hsub : List.Sublist (cands.filter (fun r => r.score == s)) (cands.mergeSort scoreGE) :=
    List.sublist_mergeSort scoreGE_trans scoreGE_total hpw (List.filter_sublist _)
  have hsub2 : List.Sublist (cands.filter (fun r => r.score == s))
      ((cands.mergeSort scoreGE).filter (fun r => r.score == s)) := by
    have hf := hsub.filter (fun r => r.score == s)
    rwa [List.filter_eq_self.mpr (fun a ha => by simpa using hall a ha)] at hf
  have hlen : ((cands.mergeSort scoreGE).filter (fun r => r.score == s)).length
      = (cands.filter (fun r => r.score == s)).length :=
    (hperm.filter _).length_eq
  exact (hsub2.eq_of_length hlen.symm).symm

/-- C9: saving the store with save_db and loading it back with load_db
reconstructs a store equal to the original; in particular each keyword set,
serialized as a list, is rebuilt into the same set. -/
theorem save_load_roundtrip (store : List (Nat × Record)) :
    load_db (save_db store) = store := by
  induction store with
  | nil => rfl
  | cons p rest ih =>
    obtain ⟨k, r⟩ := p
    show (pyInt (pyStr k),
        Record.mk r.id r.title r.text ((keywordList r.keywords).toFinset) r.media_type r.date)
        :: load_db (save_db rest) = (k, r) :: rest
    rw [pyInt_pyStr, ih]
    unfold keywordList
    rw [Finset.sort_toFinset]

/-- C10: when the database file does not exist, load_db leaves the store empty
and returns normally. -/
theorem load_missing_file_empty : load_db_from_file none = [] := rfl

/-- C8: parsing the Avengers caption with the video flag yields the title
"Avengers: Endgame (2019)", keywords containing avengers, endgame and action
but not movie, and media kind video. -/
theorem avengers_scenario :
    (index_message msgAv).map Record.title = some "Avengers: Endgame (2019)"
    ∧ "avengers" ∈ kwOf (index_message msgAv)
    ∧ "endgame" ∈ kwOf (index_message msgAv)
    ∧ "action" ∈ kwOf (index_message msgAv)
    ∧ "movie" ∉ kwOf (index_message msgAv)
    ∧ (index_message msgAv).map Record.media_type = some (some MediaType.video) := by
  decide

/-- C1 counterexample: the accumulated partial bonuses reach exactly 10000 for
a query that is not an exact title match, so the only-if direction of the
claim fails. -/
theorem score_ten_thousand_without_exact :
    calculate_match_score "a b" (Record.mk 1 "a b c" "" ∅ none none) = 10000
    ∧ pyStrip (pyLower ("a b" : String).data)
        ≠ pyLower (Record.mk 1 "a b c" "" ∅ none none).title.data := by
  decide

/-- C1 (amended): whenever the stripped lowercased query equals the record's
lowercased title, calculate_match_score returns exactly 10000, the
short-circuit adding no further bonuses; the converse of the original claim is
refuted separately. -/
theorem score_exact_gives_max (q : String) (m : Record)
    (h : pyStrip (pyLower q.data) = pyLower m.title.data) :
    calculate_match_score q m = 10000 :=
  score_of_exact_title q m h

/-- C1 witness: the amended theorem applied to a concrete exact match. -/
theorem score_exact_gives_max_witness :
    pyStrip (pyLower ("Money Heist " : String).data)
      = pyLower (Record.mk 1 "Money Heist" "" ∅ none none).title.data
    ∧ calculate_match_score "Money Heist " (Record.mk 1 "Money Heist" "" ∅ none none) = 10000 :=
  ⟨by decide,
   score_exact_gives_max "Money Heist " (Record.mk 1 "Money Heist" "" ∅ none none) (by decide)⟩

/-- C2 counterexample: a record with no substring match and no word overlap but
with video media scores 50, not 0. -/
theorem score_no_match_not_zero :
    pyIn (pyStrip (pyLower ("zzz" : String).data)) (pyLower mediaOnlyRecord.title.data) = false
    ∧ pyIn (pyStrip (pyLower ("zzz" : String).data)) (pyLower mediaOnlyRecord.text.data) = false
    ∧ wordSet (pyStrip (pyLower ("zzz" : String).data))
        ∩ wordSet (pyLower mediaOnlyRecord.title.data) = ∅
    ∧ wordSet (pyStrip (pyLower ("zzz" : String).data)) ∩ mediaOnlyRecord.keywords = ∅
    ∧ calculate_match_score "zzz" mediaOnlyRecord ≠ 0 := by
  decide

/-- C2 (amended): with no substring match against title or text and no word
overlap with title words or keywords, calculate_match_score returns 50 when
the record's media kind is video or document and 0 otherwise. -/
theorem score_no_match_media (q : String) (m : Record)
    (h1 : pyIn (pyStrip (pyLower q.data)) (pyLower m.title.data) = false)
    (h2 : pyIn (pyStrip (pyLower q.data)) (pyLower m.text.data) = false)
    (h3 : wordSet (pyStrip (pyLower q.data)) ∩ wordSet (pyLower m.title.data) = ∅)
    (h4 : wordSet (pyStrip (pyLower q.data)) ∩ m.keywords = ∅) :
    calculate_match_score q m =
      if m.media_type = some MediaType.video || m.media_type = some MediaType.document
      then 50 else 0 := by
  have hne : pyStrip (pyLower q.data) ≠ pyLower m.title.data := by
    intro he
    rw [he, pyIn_refl] at h1
    cases h1
  have hpre : (pyStrip (pyLower q.data)).isPrefixOf (pyLower m.title.data) = false := by
    cases hb : (pyStrip (pyLower q.data)).isPrefixOf (pyLower m.title.data) with
    | false => rfl
    | true => rw [pyIn_of_isPrefixOf hb] at h1; cases h1
  simp [calculate_match_score, if_neg hne, h1, hpre, h2, h3, h4]

/-- C2 witness: the amended theorem applied to a concrete no-match video record. -/
theorem score_no_match_media_witness :
    pyIn (pyStrip (pyLower ("zzz" : String).data)) (pyLower mediaOnlyRecord.title.data) = false
    ∧ calculate_match_score "zzz" mediaOnlyRecord =
        if mediaOnlyRecord.media_type = some MediaType.video
            || mediaOnlyRecord.media_type = some MediaType.document
        then 50 else 0 :=
  ⟨by decide,
   score_no_match_media "zzz" mediaOnlyRecord (by decide) (by decide) (by decide) (by decide)⟩

/-- C3 counterexample: a non-exact record accumulates 11150 against the exact
match's 10000, so the exact-match record does not rank strictly first. -/
theorem partial_outscores_exact :
    pyStrip (pyLower ("money heist" : String).data)
      = pyLower (Record.mk 1 "Money Heist" "" ∅ none none).title.data
    ∧ pyStrip (pyLower ("money heist" : String).data)
        ≠ pyLower (Record.mk 2 "money heist 2" "money heist 2" {"money", "heist"}
            (some MediaType.video) none).title.data
    ∧ calculate_match_score "money heist" (Record.mk 1 "Money Heist" "" ∅ none none)
        < calculate_match_score "money heist"
            (Record.mk 2 "money heist 2" "money heist 2" {"money", "heist"}
              (some MediaType.video) none) := by
  decide

/-- C3 (amended): an exact-match record scores the fixed 10000 and therefore
strictly outranks every record whose accumulated score stays below 10000; a
non-exact record may reach or exceed 10000, so strict first place does not
hold in general. -/
theorem exact_outranks_below_max (q : String) (m1 m2 : Record)
    (h : pyStrip (pyLower q.data) = pyLower m1.title.data)
    (hlt : calculate_match_score q m2 < 10000) :
    calculate_match_score q m2 < calculate_match_score q m1 := by
  rw [score_of_exact_title q m1 h]
  exact hlt

/-- C3 witness: the amended theorem applied to a concrete pair of records. -/
theorem exact_outranks_below_max_witness :
    pyStrip (pyLower ("money heist" : String).data)
      = pyLower (Record.mk 1 "Money Heist" "" ∅ none none).title.data
    ∧ calculate_match_score "money heist" (Record.mk 3 "Heist City" "" ∅ none none) < 10000
    ∧ calculate_match_score "money heist" (Record.mk 3 "Heist City" "" ∅ none none)
        < calculate_match_score "money heist" (Record.mk 1 "Money Heist" "" ∅ none none) :=
  ⟨by decide, by decide,
   exact_outranks_below_max "money heist" (Record.mk 1 "Money Heist" "" ∅ none none)
     (Record.mk 3 "Heist City" "" ∅ none none) (by decide) (by decide)⟩

/-- C4 counterexample: a message whose text exceeds 500 characters stores
keywords derived from the full text, and re-parsing the truncated stored text
yields a different set. -/
theorem stored_keywords_counterexample :
    (index_message msgLong).map keywordsOfStoredText = some ∅
    ∧ (index_message msgLong).map Record.keywords = some {"zebra"} := by
  decide

/-- C4 (amended): for every record stored by index_message whose source text
has at most 500 characters, the stored keyword set equals extract_keywords
applied to the record's stored text field. -/
theorem stored_keywords_short_text (msg : Message) (rec : Record)
    (hidx : index_message msg = some rec)
    (hlen : (pyOrText msg.text msg.caption).data.length ≤ 500) :
    rec.keywords = extract_keywords rec.text := by
  simp only [index_message] at hidx
  split at hidx
  · cases hidx
  · have h := Option.some.inj hidx
    subst h
    show extract_keywords (pyOrText msg.text msg.caption)
      = extract_keywords ⟨(pyOrText msg.text msg.caption).data.take 500⟩
    rw [List.take_of_length_le hlen]

/-- C4 witness: the amended theorem applied to a concrete short message. -/
theorem stored_keywords_short_text_witness :
    index_message (Message.mk 3 (some "zebra movie") none false false false none)
      = some (Record.mk 3 "zebra movie" "zebra movie" {"zebra"} none none)
    ∧ (pyOrText (some "zebra movie") none).data.length ≤ 500
    ∧ (Record.mk 3 "zebra movie" "zebra movie" {"zebra"} none none).keywords
        = extract_keywords (Record.mk 3 "zebra movie" "zebra movie" {"zebra"} none none).text :=
  ⟨by decide, by decide,
   stored_keywords_short_text (Message.mk 3 (some "zebra movie") none false false false none)
     (Record.mk 3 "zebra movie" "zebra movie" {"zebra"} none none) (by decide) (by decide)⟩

/-- C6 counterexample: a non-empty whitespace-only input produces an empty
title rather than a non-empty string or the placeholder. -/
theorem title_empty_counterexample :
    pyOrText (some "\n") none ≠ "" ∧ extract_movie_title (some "\n") none = "" := by
  decide

/-- C6 (amended): extract_movie_title always returns at most 80 characters and
returns exactly the placeholder "Unknown Movie" when the content is empty; the
result can however be empty on whitespace-only input. -/
theorem title_bounded (text caption : Option String) :
    (extract_movie_title text caption).length ≤ 80
    ∧ (pyOrText text caption = "" → extract_movie_title text caption = "Unknown Movie") := by
  constructor
  · simp only [extract_movie_title]
    split
    · decide
    · split
      · next l heq =>
        show l.length ≤ 80
        exact firstQualifying_length heq
      · refine le_trans (clean_text_length _) ?_
        show ((pyOrText text caption).data.take 80).length ≤ 80
        rw [List.length_take]
        exact min_le_left _ _
  · intro h
    simp only [extract_movie_title, if_pos h]

/-- C6 witness: the amended theorem applied to empty content. -/
theorem title_bounded_witness :
    (extract_movie_title none none).length ≤ 80
    ∧ extract_movie_title none none = "Unknown Movie" :=
  ⟨(title_bounded none none).1, (title_bounded none none).2 rfl⟩

/-- C7 counterexample: on a content whose 80-character cut lands inside a
whitespace run, the code's fallback (truncate, then normalize) differs from
the first 80 characters of the whitespace-normalized full text. -/
theorem title_fallback_counterexample :
    pyOrText (some contentC7) none ≠ ""
    ∧ firstQualifying ((splitNL (pyOrText (some contentC7) none).data).take 3) = none
    ∧ extract_movie_title (some contentC7) none ≠ spec_fallback_title contentC7 := by
  decide

/-- C7 (amended): when the content is non-empty and none of its first three
lines qualifies, extract_movie_title returns the whitespace-normalization of
the first 80 characters of the full text (truncate first, normalize second). -/
theorem title_fallback_truncates_first (text caption : Option String)
    (hne : pyOrText text caption ≠ "")
    (hq : firstQualifying ((splitNL (pyOrText text caption).data).take 3) = none) :
    extract_movie_title text caption = clean_text ⟨(pyOrText text caption).data.take 80⟩ := by
  simp only [extract_movie_title, if_neg hne, hq]

/-- C7 witness: the amended theorem applied to a concrete short content. -/
theorem title_fallback_truncates_first_witness :
    pyOrText (some "ab") none ≠ ""
    ∧ firstQualifying ((splitNL (pyOrText (some "ab") none).data).take 3) = none
    ∧ extract_movie_title (some "ab") none
        = clean_text ⟨(pyOrText (some "ab") none).data.take 80⟩ :=
  ⟨by decide, by decide,
   title_fallback_truncates_first (some "ab") none (by decide) (by decide)⟩

/-- C5: the search result sequence is the first five entries of the stable
descending sort of exactly the positive-score candidates: the sorted list is a
permutation of the candidate list (the records with score > 0 in store
iteration order), is sorted descending by score, and its restriction to any
fixed score value equals the candidate list's restriction, so equal scores
keep store order and ties at the cutoff keep the earliest-seen candidate. -/
theorem search_results_spec (q : String) (store : List (Nat × Record)) :
    performSearchResults q store = ((searchCandidates q store).mergeSort scoreGE).take 5
    ∧ ((searchCandidates q store).mergeSort scoreGE).Perm (searchCandidates q store)
    ∧ ((searchCandidates q store).mergeSort scoreGE).Pairwise (fun a b => b.score ≤ a.score)
    ∧ (∀ s : Nat, ((searchCandidates q store).mergeSort scoreGE).filter (fun r => r.score == s)
        = (searchCandidates q store).filter (fun r => r.score == s))
    ∧ (∀ r ∈ searchCandidates q store, 0 < r.score) := by
  refine ⟨rfl, List.mergeSort_perm _ _, ?_, fun s => mergeSort_score_filter _ s, ?_⟩
  · have h := List.sorted_mergeSort scoreGE_trans scoreGE_total (searchCandidates q store)
    exact h.imp (fun hab => by simpa [scoreGE] using hab)
  · intro r hr
    simp only [searchCandidates, List.mem_filterMap] at hr
    obtain ⟨p, hp, hpr⟩ := hr
    split at hpr
    · next hpos =>
      cases hpr
      exact hpos
    · cases hpr

/-- C5 witness: the positivity clause of the pipeline theorem applied to a
concrete store. -/
theorem search_results_spec_witness :
    (⟨1, "wxyz", 10000⟩ : SearchResult)
      ∈ searchCandidates "wxyz" [(1, Record.mk 1 "wxyz" "" ∅ none none)]
    ∧ 0 < (⟨1, "wxyz", 10000⟩ : SearchResult).score :=
  ⟨by decide,
   (search_results_spec "wxyz" [(1, Record.mk 1 "wxyz" "" ∅ none none)]).2.2.2.2
     ⟨1, "wxyz", 10000⟩ (by decide)⟩
